import Mathlib

/-!
Shallow embedding of the bulk account-provisioning state machine of
`bot.py` (functions `handle_bulk_numbers_input`, `start_bulk_processing`,
`process_next_bulk_number`, `send_bulk_otp`, `bulk_number_failed`,
`bulk_number_success`, `handle_bulk_otp_input`, `handle_bulk_password_input`,
`save_bulk_account`, `show_bulk_summary`, `handle_cancel_bulk`, and the
`pause_bulk` / `resume_bulk` / `skip_bulk_number` / `start_bulk_add`
callback branches of `handle_callbacks`), together with the outcome shapes
of the facade helpers in `account.py` (`bulk_send_code_*`,
`bulk_verify_otp_*`, `bulk_verify_password_*`, `bulk_save_account_*`).

The per-admin dictionary entry `bulk_add_states[user_id]` is the record
`BulkState`; there is one admin, so the system state is an `Option BulkState`
plus instrumentation: the list of `safe_disconnect` calls (facade releases),
the list of password-submission numbers handed to the facade, and the final
state snapshot rendered by `show_bulk_summary` before deletion.  External
facade outcomes are an oracle `Env` of response queues consumed in call
order.  The recursive chain `process_next_bulk_number` → `send_bulk_otp` →
`bulk_number_failed` → `process_next_bulk_number` is fuel-indexed; each
function performs its own effects and spends fuel only on re-entering the
chain, so any sufficiently large fuel computes exactly what the Python
code does.
-/

/-- State tags stored in `state["step"]` in `bot.py`. -/
inductive Step where
  | waitingNumbers
  | confirmNumbers
  | waitingOtp
  | waitingPassword
deriving DecidableEq

/-- One entry of `state["failed_numbers"]`. -/
structure FailedRec where
  number : String
  reason : String
deriving DecidableEq

/-- The dictionary `bulk_add_states[user_id]` (semantic fields only;
`message_id`, `chat_id`, `mode`, `current_manager` and
`current_phone_code_hash` carry no state-machine content).  The facade
handle `current_client` is a numeric instance id. -/
structure BulkState where
  country : String
  phone_numbers : List String
  current_index : Nat
  total_numbers : Nat
  success_count : Nat
  failed_count : Nat
  failed_numbers : List FailedRec
  current_client : Option Nat
  current_phone : Option String
  password_attempts : Nat
  step : Step
  is_processing : Bool
deriving DecidableEq

/-- Outcome of `bulk_send_code_sync` as consumed by `send_bulk_otp`. -/
inductive SendCodeResult where
  | success (client : Nat)
  | failure (error : String)
deriving DecidableEq

/-- Outcome of `bulk_verify_otp_sync` as consumed by `handle_bulk_otp_input`
(the handler's exception path yields the same dict shape as `error`). -/
inductive OtpResult where
  | ok
  | passwordRequired
  | error (msg : String)
deriving DecidableEq

/-- Outcome of `bulk_verify_password_sync`. -/
inductive PasswordResult where
  | ok
  | rejected (msg : String)
deriving DecidableEq

/-- Outcome of `bulk_save_account_sync`. -/
inductive SaveResult where
  | ok
  | failure (msg : String)
deriving DecidableEq

/-- Oracle of external facade responses, one queue per operation,
consumed in call order. -/
structure Env where
  sendCodes : List SendCodeResult
  otps : List OtpResult
  passwords : List PasswordResult
  saves : List SaveResult
deriving DecidableEq

def Env.nextSend (e : Env) : SendCodeResult × Env :=
  match e.sendCodes with
  | [] => (SendCodeResult.failure "no response", e)
  | r :: rs => (r, { e with sendCodes := rs })

def Env.nextOtp (e : Env) : OtpResult × Env :=
  match e.otps with
  | [] => (OtpResult.error "no response", e)
  | r :: rs => (r, { e with otps := rs })

def Env.nextPassword (e : Env) : PasswordResult × Env :=
  match e.passwords with
  | [] => (PasswordResult.rejected "no response", e)
  | r :: rs => (r, { e with passwords := rs })

def Env.nextSave (e : Env) : SaveResult × Env :=
  match e.saves with
  | [] => (SaveResult.failure "no response", e)
  | r :: rs => (r, { e with saves := rs })

/-- Whole-system state: the (single admin's) job entry, the snapshot taken
by `show_bulk_summary` just before it deletes the entry, the sequence of
`safe_disconnect` (release) calls by facade instance id, and the sequence
of submission numbers passed to the password-verification facade. -/
structure Sys where
  job : Option BulkState
  finished : Option BulkState
  releases : List Nat
  pwCalls : List Nat
  env : Env
deriving DecidableEq

/-- Python `str.strip()` (for the ASCII whitespace the inputs use). -/
def pyStrip (s : String) : String :=
  ⟨(((s.data.dropWhile Char.isWhitespace).reverse).dropWhile Char.isWhitespace).reverse⟩

/-- ASCII lowercasing of one character, as `str.lower()` acts on the
inputs at hand. -/
def asciiLower (c : Char) : Char :=
  if 'A' ≤ c ∧ c ≤ 'Z' then Char.ofNat (c.toNat + 32) else c

/-- Python `str.lower()`. -/
def pyLower (s : String) : String := ⟨s.data.map asciiLower⟩

/-- Split a character list at every occurrence of `c` (Python
`str.split(c)` semantics: n separators yield n+1 chunks). -/
def splitChar (c : Char) : List Char → List (List Char)
  | [] => [[]]
  | x :: xs =>
    match splitChar c xs with
    | [] => []
    | g :: gs => if x == c then [] :: g :: gs else (x :: g) :: gs

/-- Python `text.split('\n')`. -/
def pyLines (t : String) : List String := (splitChar '\n' t.data).map (fun l => ⟨l⟩)

/-- The `safe_disconnect(state["current_client"])` calls guarded by
`if state.get("current_client")`. -/
def doRelease (s : BulkState) (y : Sys) : Sys :=
  match s.current_client with
  | some c => { y with releases := y.releases ++ [c] }
  | none => y

/-- The mutations performed by `bulk_number_failed` before it re-enters
`process_next_bulk_number` (and, inlined, by the `skip_bulk_number`
callback branch, which performs the identical sequence): bump
`failed_count`, append the failure record, disconnect the held client,
bump `current_index`, reset `password_attempts`. -/
def failStep (reason : String) (s : BulkState) (y : Sys) : BulkState × Sys :=
  let s1 := { s with failed_count := s.failed_count + 1,
                     failed_numbers := s.failed_numbers ++
                       [⟨s.current_phone.getD "Unknown", reason⟩] }
  let y1 := doRelease s1 y
  ({ s1 with current_index := s1.current_index + 1, password_attempts := 0 }, y1)

/-- The mutations performed by `bulk_number_success` before it re-enters
`process_next_bulk_number`. -/
def succStep (s : BulkState) (y : Sys) : BulkState × Sys :=
  let s1 := { s with success_count := s.success_count + 1 }
  let y1 := doRelease s1 y
  ({ s1 with current_index := s1.current_index + 1, password_attempts := 0 }, y1)

/-- `process_next_bulk_number`, with its unique callee `send_bulk_otp`
inlined at its single call site: return while paused, finalize (summary +
delete) at list exhaustion, otherwise set up the current phone and request
a code; a code-request failure runs `bulk_number_failed` and loops.  The
fuel `n` bounds only the recursion depth (one unit per consecutive
code-request failure); each step's mutations are performed before fuel is
consumed. -/
def procNext : Nat → BulkState → Sys → Sys
  | 0, s, y => { y with job := some s }
  | m + 1, s, y =>
    if s.is_processing = false then { y with job := some s }
    else if s.total_numbers ≤ s.current_index then
      { y with job := none, finished := some s }
    else
      let s1 := { s with current_phone := some (s.phone_numbers.getD s.current_index ""),
                         password_attempts := 0 }
      match y.env.nextSend with
      | (SendCodeResult.success c, e) =>
        { y with env := e,
                 job := some { s1 with current_client := some c, step := Step.waitingOtp } }
      | (SendCodeResult.failure err, e) =>
        let p := failStep ("Failed to send OTP: " ++ err) s1 { y with env := e }
        procNext m p.1 p.2

/-- `bulk_number_failed`: effects, then `process_next_bulk_number`. -/
def numFailed (n : Nat) (reason : String) (s : BulkState) (y : Sys) : Sys :=
  let p := failStep reason s y
  procNext n p.1 p.2

/-- `bulk_number_success`: effects, then `process_next_bulk_number`. -/
def numSuccess (n : Nat) (s : BulkState) (y : Sys) : Sys :=
  let p := succStep s y
  procNext n p.1 p.2

/-- `save_bulk_account` (the credential-store call after successful
verification; `pw` mirrors the optional 2FA password stored with the
account). -/
def saveBulk (n : Nat) (s : BulkState) (y : Sys) (_pw : Option String) : Sys :=
  match y.env.nextSave with
  | (SaveResult.ok, _e) => numSuccess n s { y with env := _e }
  | (SaveResult.failure m, _e) => numFailed n ("Save error: " ++ m) s { y with env := _e }

/-- The check `otp_code.isdigit() and len(otp_code) == 5`. -/
def isFiveDigitCode (c : String) : Bool :=
  c.data.all Char.isDigit && c.data.length == 5

/-- `handle_bulk_otp_input` (guarded on step `waiting_bulk_otp` by the
dispatcher). -/
def otpInput (n : Nat) (t : String) (s : BulkState) (y : Sys) : Sys :=
  let code := pyStrip t
  if pyLower code == "skip" then numFailed n "Skipped by admin" s y
  else if isFiveDigitCode code = false then { y with job := some s }
  else
    match y.env.nextOtp with
    | (OtpResult.ok, e) => saveBulk n s { y with env := e } none
    | (OtpResult.passwordRequired, e) =>
      { y with env := e,
               job := some { s with step := Step.waitingPassword, password_attempts := 0 } }
    | (OtpResult.error msg, e) =>
      numFailed n ("OTP error: " ++ msg) s { y with env := e }

/-- `handle_bulk_password_input` (guarded on step `waiting_bulk_password`).
The submission counter is incremented before the cap check and before the
facade call, exactly as in the source. -/
def passwordInput (n : Nat) (t : String) (s : BulkState) (y : Sys) : Sys :=
  let pw := pyStrip t
  if pyLower pw == "skip" then numFailed n "Skipped by admin" s y
  else if pw == "" then { y with job := some s }
  else
    let s1 := { s with password_attempts := s.password_attempts + 1 }
    if 2 < s1.password_attempts then numFailed n "Max password attempts exceeded" s1 y
    else
      match y.env.nextPassword with
      | (PasswordResult.ok, e) =>
        saveBulk n s1 { y with env := e, pwCalls := y.pwCalls ++ [s1.password_attempts] }
          (some pw)
      | (PasswordResult.rejected msg, e) =>
        let y1 := { y with env := e, pwCalls := y.pwCalls ++ [s1.password_attempts] }
        if 2 ≤ s1.password_attempts then
          numFailed n ("Password error: " ++ msg) s1 y1
        else { y1 with job := some s1 }

/-- The line preprocessing of `handle_bulk_numbers_input`:
`text.strip()` then split on newlines, strip each line, drop empties. -/
def parsedLines (t : String) : List String :=
  ((pyLines (pyStrip t)).map pyStrip).filter (fun l => l != "")

/-- The validation `re.match(r'^\+\d\x7b10,15\x7d$', line)`: a plus sign
followed by 10 to 15 digits. -/
def validPhone (p : String) : Bool :=
  match p.data with
  | [] => false
  | c :: rest =>
    c == '+' && rest.all Char.isDigit &&
      decide (10 ≤ rest.length) && decide (rest.length ≤ 15)

/-- The list kept by `handle_bulk_numbers_input`: the source iterates
`for line in lines[:50]` and keeps matches, i.e. it truncates to the first
50 lines BEFORE filtering. -/
def createAttempts (raw : List String) : List String :=
  (raw.take 50).filter validPhone

/-- Modelled from the spec's words, for refinement comparison with
`createAttempts`: `createJob` "filters invalid numbers, caps at 50", i.e.
keep every matching entry in order and then cap the result at 50. -/
def specCreateAttempts (raw : List String) : List String :=
  (raw.filter validPhone).take 50

/-- Body of `handle_bulk_numbers_input` (guarded on step `waiting_numbers`):
zero valid numbers leaves the state untouched (validation error), otherwise
the attempt list, its length and the step are stored. -/
def numbersInput (t : String) (s : BulkState) (y : Sys) : Sys :=
  let valid := createAttempts (parsedLines t)
  if valid.isEmpty then { y with job := some s }
  else
    { y with job := some { s with phone_numbers := valid,
                                  total_numbers := valid.length,
                                  step := Step.confirmNumbers } }

/-- The fresh dictionary created by the `bulk_account_` callback branch. -/
def initState (country : String) : BulkState :=
  { country := country
    phone_numbers := []
    current_index := 0
    total_numbers := 0
    success_count := 0
    failed_count := 0
    failed_numbers := []
    current_client := none
    current_phone := none
    password_attempts := 0
    step := Step.waitingNumbers
    is_processing := false }

/-- External events driving the engine: job creation, free-text messages
(dispatched by the step guards of the three message handlers), and the
callback buttons. -/
inductive Op where
  | createBulk (country : String)
  | textInput (t : String)
  | startAdd
  | pauseBulk
  | resumeBulk
  | skipButton
  | cancelBulk

/-- One external event, dispatched exactly as `handle_callbacks` and the
step-guarded message handlers dispatch it.  Events for an absent job are
ignored (`if user_id not in bulk_add_states: return`). -/
def applyOp (n : Nat) (op : Op) (y : Sys) : Sys :=
  match op with
  | Op.createBulk country => { y with job := some (initState country) }
  | Op.textInput t =>
    match y.job with
    | none => y
    | some s =>
      match s.step with
      | Step.waitingNumbers => numbersInput t s y
      | Step.confirmNumbers => y
      | Step.waitingOtp => otpInput n t s y
      | Step.waitingPassword => passwordInput n t s y
  | Op.startAdd =>
    match y.job with
    | none => y
    | some s =>
      if s.phone_numbers.isEmpty then y
      else procNext n { s with is_processing := true } y
  | Op.pauseBulk =>
    match y.job with
    | none => y
    | some s => { y with job := some { s with is_processing := false } }
  | Op.resumeBulk =>
    match y.job with
    | none => y
    | some s => procNext n { s with is_processing := true } y
  | Op.skipButton =>
    match y.job with
    | none => y
    | some s => numFailed n "Skipped by admin" s y
  | Op.cancelBulk =>
    match y.job with
    | none => y
    | some s => { doRelease s y with job := none }

/-- Run a sequence of external events. -/
def runTrace (n : Nat) (y : Sys) (ops : List Op) : Sys :=
  ops.foldl (fun a op => applyOp n op a) y

/-- Initial system: no job, empty instrumentation, a given oracle. -/
def initSys (e : Env) : Sys :=
  { job := none, finished := none, releases := [], pwCalls := [], env := e }

/-- The state an observer can still examine after an event: the live job
if present, otherwise the snapshot emitted by `show_bulk_summary`. -/
def observed (y : Sys) : Option BulkState :=
  match y.job with
  | some s => some s
  | none => y.finished

/-- What one advancing cascade can do to the live/summary state: only
extend `failed_numbers` and only increase the cursor and both counters. -/
def Progresses (s s' : BulkState) : Prop :=
  (∃ ext, s'.failed_numbers = s.failed_numbers ++ ext) ∧
  s.current_index ≤ s'.current_index ∧
  s.failed_count ≤ s'.failed_count ∧
  s.success_count ≤ s'.success_count

/-- The advance cascade never touches the password-call log nor the
otp/password/save oracles, and only appends to the release log. -/
def CascadeFrame (y y' : Sys) : Prop :=
  y'.pwCalls = y.pwCalls ∧ y'.env.otps = y.env.otps ∧
  y'.env.passwords = y.env.passwords ∧ y'.env.saves = y.env.saves ∧
  ∃ r, y'.releases = y.releases ++ r

/-- The invariant claimed for `success_count`/`failed_count`/`current_index`. -/
def Counters (s : BulkState) : Prop :=
  s.success_count + s.failed_count = s.current_index

/-- The invariant on the summary snapshot. -/
def FinOk (y : Sys) : Prop := ∀ u, y.finished = some u → Counters u

/-- The invariant on the whole system. -/
def CountersSys (y : Sys) : Prop :=
  (∀ u, y.job = some u → Counters u) ∧ FinOk y

/-- The cursor/attempt-list shape invariant: `total_numbers` mirrors the
attempt list length, the cursor stays within bounds, and a job still in
the number-collection step has no attempts and cursor 0. -/
def CursorInv (s : BulkState) : Prop :=
  s.total_numbers = s.phone_numbers.length ∧
  s.current_index ≤ s.total_numbers ∧
  (s.step = Step.waitingNumbers → s.phone_numbers = [] ∧ s.current_index = 0)

/-- Discipline on external inputs under which the cursor bound holds: a
skip press or a free-text message for an attempt is only delivered while
an attempt is actually pending (`cursor < len(attempts)`). -/
def inputGuard (op : Op) (y : Sys) : Bool :=
  match op, y.job with
  | Op.skipButton, some s => decide (s.current_index < s.total_numbers)
  | Op.textInput _, some s =>
    match s.step with
    | Step.waitingOtp => decide (s.current_index < s.total_numbers)
    | Step.waitingPassword => decide (s.current_index < s.total_numbers)
    | _ => true
  | _, _ => true

/-- A run of external events in which every event satisfies `inputGuard`
at the state where it is delivered. -/
def guardedRun (n : Nat) : Sys → List Op → Bool
  | _, [] => true
  | y, op :: rest => inputGuard op y && guardedRun n (applyOp n op y) rest

def envEmpty : Env := ⟨[], [], [], []⟩

def yFresh : Sys :=
  { job := some (initState "India"), finished := none, releases := [], pwCalls := [],
    env := envEmpty }

def sAwait : BulkState :=
  { initState "India" with
      phone_numbers := ["+911111111111"]
      total_numbers := 1
      current_phone := some "+911111111111"
      current_client := some 4
      step := Step.waitingOtp }

def yAwait : Sys :=
  { job := some sAwait, finished := none, releases := [], pwCalls := [], env := envEmpty }

def yAwaitSave : Sys :=
  { yAwait with env := ⟨[], [OtpResult.ok], [], [SaveResult.failure "db down"]⟩ }

def sPw : BulkState := { sAwait with step := Step.waitingPassword }

def yPw : Sys :=
  { job := some sPw, finished := none, releases := [], pwCalls := [],
    env := ⟨[], [], [PasswordResult.rejected "bad"], []⟩ }

def envTwoRejects : Env :=
  ⟨[SendCodeResult.success 3], [OtpResult.passwordRequired],
   [PasswordResult.rejected "bad", PasswordResult.rejected "bad"], []⟩

def opsTwoRejects : List Op :=
  [Op.createBulk "India", Op.textInput "+911111111111", Op.startAdd,
   Op.textInput "12345", Op.textInput "hunter2", Op.textInput "hunter2"]

def envStaleSkip : Env := ⟨[SendCodeResult.success 1], [], [], []⟩

def opsStaleSkip : List Op :=
  [Op.createBulk "India", Op.textInput "+911111111111", Op.startAdd,
   Op.pauseBulk, Op.textInput "skip", Op.skipButton]

def envDoubleRelease : Env :=
  ⟨[SendCodeResult.success 7, SendCodeResult.failure "flood"], [OtpResult.ok], [],
   [SaveResult.ok]⟩

def opsDoubleRelease : List Op :=
  [Op.createBulk "India", Op.textInput "+911111111111\n+912222222222", Op.startAdd,
   Op.textInput "12345"]

def over50Input : List String := "bad" :: List.replicate 50 "+911111111111"

/-! ### Basic facts about the oracle pops and the release helper -/

@[simp] lemma nextSend_otps (e : Env) : (Env.nextSend e).2.otps = e.otps := by
  cases h : e.sendCodes <;> simp [Env.nextSend, h]

@[simp] lemma nextSend_passwords (e : Env) : (Env.nextSend e).2.passwords = e.passwords := by
  cases h : e.sendCodes <;> simp [Env.nextSend, h]

@[simp] lemma nextSend_saves (e : Env) : (Env.nextSend e).2.saves = e.saves := by
  cases h : e.sendCodes <;> simp [Env.nextSend, h]

@[simp] lemma nextOtp_sendCodes (e : Env) : (Env.nextOtp e).2.sendCodes = e.sendCodes := by
  cases h : e.otps <;> simp [Env.nextOtp, h]

@[simp] lemma nextOtp_passwords (e : Env) : (Env.nextOtp e).2.passwords = e.passwords := by
  cases h : e.otps <;> simp [Env.nextOtp, h]

@[simp] lemma nextOtp_saves (e : Env) : (Env.nextOtp e).2.saves = e.saves := by
  cases h : e.otps <;> simp [Env.nextOtp, h]

@[simp] lemma nextOtp_otps (e : Env) : (Env.nextOtp e).2.otps = e.otps.tail := by
  cases h : e.otps <;> simp [Env.nextOtp, h]

@[simp] lemma nextPassword_sendCodes (e : Env) : (Env.nextPassword e).2.sendCodes = e.sendCodes := by
  cases h : e.passwords <;> simp [Env.nextPassword, h]

@[simp] lemma nextPassword_otps (e : Env) : (Env.nextPassword e).2.otps = e.otps := by
  cases h : e.passwords <;> simp [Env.nextPassword, h]

@[simp] lemma nextPassword_saves (e : Env) : (Env.nextPassword e).2.saves = e.saves := by
  cases h : e.passwords <;> simp [Env.nextPassword, h]

@[simp] lemma nextSave_sendCodes (e : Env) : (Env.nextSave e).2.sendCodes = e.sendCodes := by
  cases h : e.saves <;> simp [Env.nextSave, h]

@[simp] lemma nextSave_otps (e : Env) : (Env.nextSave e).2.otps = e.otps := by
  cases h : e.saves <;> simp [Env.nextSave, h]

@[simp] lemma nextSave_passwords (e : Env) : (Env.nextSave e).2.passwords = e.passwords := by
  cases h : e.saves <;> simp [Env.nextSave, h]

lemma nextOtp_cons (e : Env) (r : OtpResult) (rs : List OtpResult) (h : e.otps = r :: rs) :
    Env.nextOtp e = (r, { e with otps := rs }) := by
  simp [Env.nextOtp, h]

lemma nextPassword_cons (e : Env) (r : PasswordResult) (rs : List PasswordResult)
    (h : e.passwords = r :: rs) : Env.nextPassword e = (r, { e with passwords := rs }) := by
  simp [Env.nextPassword, h]

lemma nextSave_cons (e : Env) (r : SaveResult) (rs : List SaveResult) (h : e.saves = r :: rs) :
    Env.nextSave e = (r, { e with saves := rs }) := by
  simp [Env.nextSave, h]

lemma nextSend_cons (e : Env) (r : SendCodeResult) (rs : List SendCodeResult)
    (h : e.sendCodes = r :: rs) : Env.nextSend e = (r, { e with sendCodes := rs }) := by
  simp [Env.nextSend, h]

@[simp] lemma doRelease_job (s : BulkState) (y : Sys) : (doRelease s y).job = y.job := by
  cases h : s.current_client <;> simp [doRelease, h]

@[simp] lemma doRelease_finished (s : BulkState) (y : Sys) :
    (doRelease s y).finished = y.finished := by
  cases h : s.current_client <;> simp [doRelease, h]

@[simp] lemma doRelease_env (s : BulkState) (y : Sys) : (doRelease s y).env = y.env := by
  cases h : s.current_client <;> simp [doRelease, h]

@[simp] lemma doRelease_pwCalls (s : BulkState) (y : Sys) :
    (doRelease s y).pwCalls = y.pwCalls := by
  cases h : s.current_client <;> simp [doRelease, h]

lemma doRelease_releases (s : BulkState) (y : Sys) :
    ∃ r, (doRelease s y).releases = y.releases ++ r := by
  cases h : s.current_client with
  | none => exact ⟨[], by simp [doRelease, h]⟩
  | some c => exact ⟨[c], by simp [doRelease, h]⟩

lemma job_observed (y : Sys) (t : BulkState) (h : y.job = some t) : observed y = some t := by
  simp [observed, h]

lemma set_job_eq (y : Sys) (s : BulkState) (h : y.job = some s) :
    ({ y with job := some s } : Sys) = y := by
  cases y
  simp only at h
  rw [h]

/-! ### Observable progress of the advance cascade -/

lemma progresses_refl (s : BulkState) : Progresses s s :=
  ⟨⟨[], by simp⟩, le_refl _, le_refl _, le_refl _⟩

lemma progresses_trans {s t u : BulkState} (h1 : Progresses s t) (h2 : Progresses t u) :
    Progresses s u := by
  obtain ⟨⟨e1, he1⟩, hi1, hf1, hs1⟩ := h1
  obtain ⟨⟨e2, he2⟩, hi2, hf2, hs2⟩ := h2
  exact ⟨⟨e1 ++ e2, by rw [he2, he1, List.append_assoc]⟩,
    le_trans hi1 hi2, le_trans hf1 hf2, le_trans hs1 hs2⟩

lemma frame_trans {y z w : Sys} (h1 : CascadeFrame y z) (h2 : CascadeFrame z w) :
    CascadeFrame y w := by
  obtain ⟨a1, b1, c1, d1, r1, hr1⟩ := h1
  obtain ⟨a2, b2, c2, d2, r2, hr2⟩ := h2
  exact ⟨a2.trans a1, b2.trans b1, c2.trans c1, d2.trans d1,
    ⟨r1 ++ r2, by rw [hr2, hr1, List.append_assoc]⟩⟩

lemma frame_refl (y : Sys) : CascadeFrame y y :=
  ⟨rfl, rfl, rfl, rfl, ⟨[], by simp⟩⟩

lemma frame_doRelease (s : BulkState) (y : Sys) : CascadeFrame y (doRelease s y) := by
  refine ⟨by simp, by simp, by simp, by simp, ?_⟩
  exact doRelease_releases s y

lemma frame_set_job (y : Sys) (j : Option BulkState) :
    CascadeFrame y { y with job := j } :=
  ⟨rfl, rfl, rfl, rfl, ⟨[], by simp⟩⟩

lemma frame_envPop_send (y : Sys) (r : SendCodeResult) (e : Env)
    (hns : y.env.nextSend = (r, e)) : CascadeFrame y { y with env := e } := by
  have he : e = (y.env.nextSend).2 := by rw [hns]
  subst he
  exact ⟨rfl, by simp, by simp, by simp, ⟨[], by simp⟩⟩

lemma failStep_fst (r : String) (s : BulkState) (y : Sys) :
    (failStep r s y).1 =
      { s with failed_count := s.failed_count + 1,
               failed_numbers := s.failed_numbers ++ [⟨s.current_phone.getD "Unknown", r⟩],
               current_index := s.current_index + 1,
               password_attempts := 0 } := rfl

lemma failStep_snd (r : String) (s : BulkState) (y : Sys) :
    (failStep r s y).2 = doRelease s y := by
  cases hc : s.current_client <;> simp [failStep, doRelease, hc]

lemma succStep_fst (s : BulkState) (y : Sys) :
    (succStep s y).1 =
      { s with success_count := s.success_count + 1,
               current_index := s.current_index + 1,
               password_attempts := 0 } := rfl

lemma succStep_snd (s : BulkState) (y : Sys) : (succStep s y).2 = doRelease s y := by
  cases hc : s.current_client <;> simp [succStep, doRelease, hc]

lemma procNext_obs : ∀ (n : Nat) (s : BulkState) (y : Sys),
    ∃ s', observed (procNext n s y) = some s' ∧ Progresses s s' ∧
      CascadeFrame y (procNext n s y) := by
  intro n
  induction n with
  | zero =>
    intro s y
    exact ⟨s, rfl, progresses_refl s, frame_set_job y (some s)⟩
  | succ m ih =>
    intro s y
    by_cases hp : s.is_processing = false
    · have heq : procNext (m + 1) s y = { y with job := some s } := by
        simp [procNext, hp]
      rw [heq]
      exact ⟨s, rfl, progresses_refl s, frame_set_job y (some s)⟩
    · by_cases ht : s.total_numbers ≤ s.current_index
      · have heq : procNext (m + 1) s y = { y with job := none, finished := some s } := by
          simp [procNext, hp, ht]
        rw [heq]
        exact ⟨s, rfl, progresses_refl s, ⟨rfl, rfl, rfl, rfl, ⟨[], by simp⟩⟩⟩
      · rcases hns : y.env.nextSend with ⟨r, e⟩
        cases r with
        | success c =>
          have heq : procNext (m + 1) s y =
              { y with env := e,
                       job := some { s with
                         current_phone := some (s.phone_numbers.getD s.current_index ""),
                         password_attempts := 0,
                         current_client := some c,
                         step := Step.waitingOtp } } := by
            simp [procNext, hp, ht, hns]
          rw [heq]
          refine ⟨_, rfl, ⟨⟨[], by simp⟩, le_refl _, le_refl _, le_refl _⟩, ?_⟩
          exact frame_trans (frame_envPop_send y _ e hns) (frame_set_job _ _)
        | failure err =>
          have heq : procNext (m + 1) s y =
              procNext m
                (failStep ("Failed to send OTP: " ++ err)
                  { s with current_phone := some (s.phone_numbers.getD s.current_index ""),
                           password_attempts := 0 } { y with env := e }).1
                (failStep ("Failed to send OTP: " ++ err)
                  { s with current_phone := some (s.phone_numbers.getD s.current_index ""),
                           password_attempts := 0 } { y with env := e }).2 := by
            simp [procNext, hp, ht, hns]
          rw [heq]
          obtain ⟨s', hobs, hprog, hframe⟩ := ih (failStep _ _ _).1 (failStep _ _ _).2
          refine ⟨s', hobs, ?_, ?_⟩
          · refine progresses_trans (s := s) ?_ hprog
            rw [failStep_fst]
            exact ⟨⟨[⟨s.phone_numbers.getD s.current_index "", "Failed to send OTP: " ++ err⟩],
              by simp⟩, by simp, by simp, by simp⟩
          · refine frame_trans ?_ hframe
            rw [failStep_snd]
            exact frame_trans (frame_envPop_send y _ e hns) (frame_doRelease _ _)

lemma numFailed_obs (n : Nat) (r : String) (s : BulkState) (y : Sys) :
    ∃ s', observed (numFailed n r s y) = some s' ∧
      (∃ ext, s'.failed_numbers =
        s.failed_numbers ++ (⟨s.current_phone.getD "Unknown", r⟩ :: ext)) ∧
      s.current_index + 1 ≤ s'.current_index ∧
      s.failed_count + 1 ≤ s'.failed_count ∧
      s.success_count ≤ s'.success_count ∧
      CascadeFrame y (numFailed n r s y) := by
  unfold numFailed
  obtain ⟨s', hobs, ⟨⟨ext, hext⟩, hi, hf, hsc⟩, hframe⟩ :=
    procNext_obs n (failStep r s y).1 (failStep r s y).2
  rw [failStep_fst] at hext hi hf hsc
  rw [failStep_snd] at hframe
  refine ⟨s', hobs, ⟨ext, ?_⟩, ?_, ?_, ?_, ?_⟩
  · rw [hext]; simp
  · simpa using hi
  · simpa using hf
  · simpa using hsc
  · exact frame_trans (frame_doRelease s y) hframe

lemma numSuccess_obs (n : Nat) (s : BulkState) (y : Sys) :
    ∃ s', observed (numSuccess n s y) = some s' ∧
      (∃ ext, s'.failed_numbers = s.failed_numbers ++ ext) ∧
      s.current_index + 1 ≤ s'.current_index ∧
      s.failed_count ≤ s'.failed_count ∧
      s.success_count + 1 ≤ s'.success_count ∧
      CascadeFrame y (numSuccess n s y) := by
  unfold numSuccess
  obtain ⟨s', hobs, ⟨⟨ext, hext⟩, hi, hf, hsc⟩, hframe⟩ :=
    procNext_obs n (succStep s y).1 (succStep s y).2
  rw [succStep_fst] at hext hi hf hsc
  rw [succStep_snd] at hframe
  refine ⟨s', hobs, ⟨ext, ?_⟩, ?_, ?_, ?_, ?_⟩
  · rw [hext]
  · simpa using hi
  · simpa using hf
  · simpa using hsc
  · exact frame_trans (frame_doRelease s y) hframe

/-! ### The counter invariant `successCount + failureCount == cursor` -/

lemma procNext_counters : ∀ (n : Nat) (s : BulkState) (y : Sys),
    Counters s → FinOk y → CountersSys (procNext n s y) := by
  intro n
  induction n with
  | zero =>
    intro s y hs hf
    refine ⟨fun u hu => ?_, hf⟩
    simp only [procNext] at hu
    cases hu
    exact hs
  | succ m ih =>
    intro s y hs hf
    by_cases hp : s.is_processing = false
    · have heq : procNext (m + 1) s y = { y with job := some s } := by simp [procNext, hp]
      rw [heq]
      exact ⟨fun u hu => by cases hu; exact hs, hf⟩
    · by_cases ht : s.total_numbers ≤ s.current_index
      · have heq : procNext (m + 1) s y = { y with job := none, finished := some s } := by
          simp [procNext, hp, ht]
        rw [heq]
        refine ⟨fun u hu => ?_, fun u hu => ?_⟩
        · cases hu
        · cases hu
          exact hs
      · rcases hns : y.env.nextSend with ⟨r, e⟩
        cases r with
        | success c =>
          have heq : procNext (m + 1) s y =
              { y with env := e,
                       job := some { s with
                         current_phone := some (s.phone_numbers.getD s.current_index ""),
                         password_attempts := 0,
                         current_client := some c,
                         step := Step.waitingOtp } } := by
            simp [procNext, hp, ht, hns]
          rw [heq]
          refine ⟨fun u hu => by cases hu; exact hs, fun u hu => hf u hu⟩
        | failure err =>
          have heq : procNext (m + 1) s y =
              procNext m
                (failStep ("Failed to send OTP: " ++ err)
                  { s with current_phone := some (s.phone_numbers.getD s.current_index ""),
                           password_attempts := 0 } { y with env := e }).1
                (failStep ("Failed to send OTP: " ++ err)
                  { s with current_phone := some (s.phone_numbers.getD s.current_index ""),
                           password_attempts := 0 } { y with env := e }).2 := by
            simp [procNext, hp, ht, hns]
          rw [heq]
          refine ih _ _ ?_ ?_
          · rw [failStep_fst]
            simp only [Counters] at hs ⊢
            omega
          · rw [failStep_snd]
            intro u hu
            simp only [doRelease_finished] at hu
            exact hf u hu

lemma numFailed_counters (n : Nat) (r : String) (s : BulkState) (y : Sys)
    (hs : Counters s) (hf : FinOk y) : CountersSys (numFailed n r s y) := by
  unfold numFailed
  refine procNext_counters n _ _ ?_ ?_
  · rw [failStep_fst]
    simp only [Counters] at hs ⊢
    omega
  · rw [failStep_snd]
    intro u hu
    simp only [doRelease_finished] at hu
    exact hf u hu

lemma numSuccess_counters (n : Nat) (s : BulkState) (y : Sys)
    (hs : Counters s) (hf : FinOk y) : CountersSys (numSuccess n s y) := by
  unfold numSuccess
  refine procNext_counters n _ _ ?_ ?_
  · rw [succStep_fst]
    simp only [Counters] at hs ⊢
    omega
  · rw [succStep_snd]
    intro u hu
    simp only [doRelease_finished] at hu
    exact hf u hu

lemma saveBulk_counters (n : Nat) (s : BulkState) (y : Sys) (pw : Option String)
    (hs : Counters s) (hf : FinOk y) : CountersSys (saveBulk n s y pw) := by
  unfold saveBulk
  rcases hsv : y.env.nextSave with ⟨r, e⟩
  have hfe : FinOk { y with env := e } := hf
  cases r with
  | ok => simp only [hsv]; exact numSuccess_counters n s _ hs hfe
  | failure m => simp only [hsv]; exact numFailed_counters n _ s _ hs hfe

/-! ### Cursor bound and monotonicity -/

lemma cursorInv_not_waiting {s : BulkState} (hs : CursorInv s)
    (hlt : s.current_index < s.total_numbers) : ¬ s.step = Step.waitingNumbers := by
  intro hstep
  obtain ⟨h1, _, h3⟩ := hs
  obtain ⟨hnil, _⟩ := h3 hstep
  rw [h1, hnil] at hlt
  simp at hlt

lemma procNext_cursorInv : ∀ (n : Nat) (s : BulkState) (y : Sys),
    CursorInv s → ∀ u, (procNext n s y).job = some u → CursorInv u := by
  intro n
  induction n with
  | zero =>
    intro s y hs u hu
    simp only [procNext] at hu
    cases hu
    exact hs
  | succ m ih =>
    intro s y hs u hu
    by_cases hp : s.is_processing = false
    · have heq : procNext (m + 1) s y = { y with job := some s } := by simp [procNext, hp]
      rw [heq] at hu
      cases hu
      exact hs
    · by_cases ht : s.total_numbers ≤ s.current_index
      · have heq : procNext (m + 1) s y = { y with job := none, finished := some s } := by
          simp [procNext, hp, ht]
        rw [heq] at hu
        cases hu
      · have hlt : s.current_index < s.total_numbers := by omega
        rcases hns : y.env.nextSend with ⟨r, e⟩
        cases r with
        | success c =>
          have heq : procNext (m + 1) s y =
              { y with env := e,
                       job := some { s with
                         current_phone := some (s.phone_numbers.getD s.current_index ""),
                         password_attempts := 0,
                         current_client := some c,
                         step := Step.waitingOtp } } := by
            simp [procNext, hp, ht, hns]
          rw [heq] at hu
          cases hu
          refine ⟨hs.1, hs.2.1, fun hstep => ?_⟩
          simp at hstep
        | failure err =>
          have heq : procNext (m + 1) s y =
              procNext m
                (failStep ("Failed to send OTP: " ++ err)
                  { s with current_phone := some (s.phone_numbers.getD s.current_index ""),
                           password_attempts := 0 } { y with env := e }).1
                (failStep ("Failed to send OTP: " ++ err)
                  { s with current_phone := some (s.phone_numbers.getD s.current_index ""),
                           password_attempts := 0 } { y with env := e }).2 := by
            simp [procNext, hp, ht, hns]
          rw [heq] at hu
          refine ih _ _ ?_ u hu
          rw [failStep_fst]
          refine ⟨hs.1, by dsimp only; omega, fun hstep => ?_⟩
          exact absurd hstep (cursorInv_not_waiting (s := s) hs hlt)

lemma numFailed_cursorInv (n : Nat) (r : String) (s : BulkState) (y : Sys)
    (hs : CursorInv s) (hlt : s.current_index < s.total_numbers) :
    ∀ u, (numFailed n r s y).job = some u → CursorInv u := by
  intro u hu
  unfold numFailed at hu
  refine procNext_cursorInv n _ _ ?_ u hu
  rw [failStep_fst]
  refine ⟨hs.1, by dsimp only; omega, fun hstep => ?_⟩
  exact absurd hstep (cursorInv_not_waiting (s := s) hs hlt)

lemma numSuccess_cursorInv (n : Nat) (s : BulkState) (y : Sys)
    (hs : CursorInv s) (hlt : s.current_index < s.total_numbers) :
    ∀ u, (numSuccess n s y).job = some u → CursorInv u := by
  intro u hu
  unfold numSuccess at hu
  refine procNext_cursorInv n _ _ ?_ u hu
  rw [succStep_fst]
  refine ⟨hs.1, by dsimp only; omega, fun hstep => ?_⟩
  exact absurd hstep (cursorInv_not_waiting (s := s) hs hlt)

lemma saveBulk_cursorInv (n : Nat) (s : BulkState) (y : Sys) (pw : Option String)
    (hs : CursorInv s) (hlt : s.current_index < s.total_numbers) :
    ∀ u, (saveBulk n s y pw).job = some u → CursorInv u := by
  intro u hu
  unfold saveBulk at hu
  rcases hsv : y.env.nextSave with ⟨r, e⟩
  rw [hsv] at hu
  cases r with
  | ok => exact numSuccess_cursorInv n s _ hs hlt u hu
  | failure m => exact numFailed_cursorInv n _ s _ hs hlt u hu

lemma procNext_job_mono (n : Nat) (s : BulkState) (y : Sys) (u : BulkState)
    (h : (procNext n s y).job = some u) : s.current_index ≤ u.current_index := by
  obtain ⟨s', hobs, ⟨_, hi, _, _⟩, _⟩ := procNext_obs n s y
  rw [job_observed _ _ h] at hobs
  cases hobs
  exact hi

lemma numFailed_job_mono (n : Nat) (r : String) (s : BulkState) (y : Sys) (u : BulkState)
    (h : (numFailed n r s y).job = some u) : s.current_index ≤ u.current_index := by
  obtain ⟨s', hobs, _, hi, _, _, _⟩ := numFailed_obs n r s y
  rw [job_observed _ _ h] at hobs
  cases hobs
  omega

lemma numSuccess_job_mono (n : Nat) (s : BulkState) (y : Sys) (u : BulkState)
    (h : (numSuccess n s y).job = some u) : s.current_index ≤ u.current_index := by
  obtain ⟨s', hobs, _, hi, _, _, _⟩ := numSuccess_obs n s y
  rw [job_observed _ _ h] at hobs
  cases hobs
  omega

lemma saveBulk_job_mono (n : Nat) (s : BulkState) (y : Sys) (pw : Option String) (u : BulkState)
    (h : (saveBulk n s y pw).job = some u) : s.current_index ≤ u.current_index := by
  unfold saveBulk at h
  rcases hsv : y.env.nextSave with ⟨r, e⟩
  rw [hsv] at h
  cases r with
  | ok => exact numSuccess_job_mono n s _ u h
  | failure m => exact numFailed_job_mono n _ s _ u h

lemma countersSys_of_job (y : Sys) (s : BulkState) (hs : Counters s) (hf : FinOk y) :
    CountersSys { y with job := some s } := by
  constructor
  · intro u hu
    cases hu
    exact hs
  · exact hf

lemma otpInput_counters (n : Nat) (t : String) (s : BulkState) (y : Sys)
    (hs : Counters s) (hf : FinOk y) : CountersSys (otpInput n t s y) := by
  unfold otpInput
  dsimp only
  by_cases h1 : (pyLower (pyStrip t) == "skip") = true
  · rw [if_pos h1]
    exact numFailed_counters n _ s y hs hf
  · rw [if_neg h1]
    by_cases h2 : isFiveDigitCode (pyStrip t) = false
    · rw [if_pos h2]
      exact countersSys_of_job y s hs hf
    · rw [if_neg h2]
      rcases hno : y.env.nextOtp with ⟨r, e⟩
      cases r with
      | ok =>
        simp only [hno]
        exact saveBulk_counters n s _ none hs hf
      | passwordRequired =>
        simp only [hno]
        exact countersSys_of_job { y with env := e } _ hs hf
      | error msg =>
        simp only [hno]
        exact numFailed_counters n _ s _ hs hf

lemma passwordInput_counters (n : Nat) (t : String) (s : BulkState) (y : Sys)
    (hs : Counters s) (hf : FinOk y) : CountersSys (passwordInput n t s y) := by
  have hs1 : Counters { s with password_attempts := s.password_attempts + 1 } := hs
  unfold passwordInput
  dsimp only
  by_cases h1 : (pyLower (pyStrip t) == "skip") = true
  · rw [if_pos h1]
    exact numFailed_counters n _ s y hs hf
  · rw [if_neg h1]
    by_cases h2 : (pyStrip t == "") = true
    · rw [if_pos h2]
      exact countersSys_of_job y s hs hf
    · rw [if_neg h2]
      by_cases h3 : 2 < s.password_attempts + 1
      · rw [if_pos h3]
        exact numFailed_counters n _ _ y hs1 hf
      · rw [if_neg h3]
        rcases hnp : y.env.nextPassword with ⟨r, e⟩
        cases r with
        | ok =>
          simp only [hnp]
          exact saveBulk_counters n _ _ _ hs1 hf
        | rejected msg =>
          simp only [hnp]
          by_cases h4 : 2 ≤ s.password_attempts + 1
          · rw [if_pos h4]
            exact numFailed_counters n _ _ _ hs1 hf
          · rw [if_neg h4]
            exact countersSys_of_job _ _ hs1 hf

lemma numbersInput_counters (t : String) (s : BulkState) (y : Sys)
    (hs : Counters s) (hf : FinOk y) : CountersSys (numbersInput t s y) := by
  unfold numbersInput
  dsimp only
  by_cases h1 : (createAttempts (parsedLines t)).isEmpty = true
  · rw [if_pos h1]
    exact countersSys_of_job y s hs hf
  · rw [if_neg h1]
    exact countersSys_of_job y _ hs hf

lemma applyOp_counters (n : Nat) (op : Op) (y : Sys) (h : CountersSys y) :
    CountersSys (applyOp n op y) := by
  obtain ⟨hjob, hfin⟩ := h
  cases op with
  | createBulk country =>
    unfold applyOp
    refine countersSys_of_job y _ ?_ hfin
    simp [Counters, initState]
  | textInput t =>
    unfold applyOp
    cases hy : y.job with
    | none => exact ⟨hjob, hfin⟩
    | some s =>
      simp only [hy]
      have hs := hjob s hy
      cases hstep : s.step with
      | waitingNumbers => simp only [hstep]; exact numbersInput_counters t s y hs hfin
      | confirmNumbers => simp only [hstep]; exact ⟨hjob, hfin⟩
      | waitingOtp => simp only [hstep]; exact otpInput_counters n t s y hs hfin
      | waitingPassword => simp only [hstep]; exact passwordInput_counters n t s y hs hfin
  | startAdd =>
    unfold applyOp
    cases hy : y.job with
    | none => exact ⟨hjob, hfin⟩
    | some s =>
      simp only [hy]
      have hs := hjob s hy
      by_cases hemp : s.phone_numbers.isEmpty = true
      · rw [if_pos hemp]
        exact ⟨hjob, hfin⟩
      · rw [if_neg hemp]
        exact procNext_counters n _ y hs hfin
  | pauseBulk =>
    unfold applyOp
    cases hy : y.job with
    | none => exact ⟨hjob, hfin⟩
    | some s =>
      simp only [hy]
      exact countersSys_of_job y _ (hjob s hy) hfin
  | resumeBulk =>
    unfold applyOp
    cases hy : y.job with
    | none => exact ⟨hjob, hfin⟩
    | some s =>
      simp only [hy]
      exact procNext_counters n _ y (hjob s hy) hfin
  | skipButton =>
    unfold applyOp
    cases hy : y.job with
    | none => exact ⟨hjob, hfin⟩
    | some s =>
      simp only [hy]
      exact numFailed_counters n _ s y (hjob s hy) hfin
  | cancelBulk =>
    unfold applyOp
    cases hy : y.job with
    | none => exact ⟨hjob, hfin⟩
    | some s =>
      simp only [hy]
      constructor
      · intro u hu
        simp at hu
      · intro u hu
        simp only [doRelease_finished] at hu
        exact hfin u hu

lemma runTrace_counters (n : Nat) (ops : List Op) :
    ∀ (y : Sys), CountersSys y → CountersSys (runTrace n y ops) := by
  induction ops with
  | nil => intro y h; exact h
  | cons op rest ih =>
    intro y h
    exact ih (applyOp n op y) (applyOp_counters n op y h)

lemma initSys_counters (e : Env) : CountersSys (initSys e) := by
  constructor
  · intro u hu
    cases hu
  · intro u hu
    cases hu

lemma otpInput_cursorInv (n : Nat) (t : String) (s : BulkState) (y : Sys)
    (hs : CursorInv s) (hlt : s.current_index < s.total_numbers) :
    ∀ u, (otpInput n t s y).job = some u → CursorInv u := by
  intro u hu
  unfold otpInput at hu
  dsimp only at hu
  by_cases h1 : (pyLower (pyStrip t) == "skip") = true
  · rw [if_pos h1] at hu
    exact numFailed_cursorInv n _ s y hs hlt u hu
  · rw [if_neg h1] at hu
    by_cases h2 : isFiveDigitCode (pyStrip t) = false
    · rw [if_pos h2] at hu
      cases hu
      exact hs
    · rw [if_neg h2] at hu
      rcases hno : y.env.nextOtp with ⟨r, e⟩
      cases r with
      | ok =>
        simp only [hno] at hu
        exact saveBulk_cursorInv n s _ none hs hlt u hu
      | passwordRequired =>
        simp only [hno] at hu
        cases hu
        refine ⟨hs.1, hs.2.1, fun hstep => ?_⟩
        simp at hstep
      | error msg =>
        simp only [hno] at hu
        exact numFailed_cursorInv n _ s _ hs hlt u hu

lemma passwordInput_cursorInv (n : Nat) (t : String) (s : BulkState) (y : Sys)
    (hs : CursorInv s) (hlt : s.current_index < s.total_numbers)
    (hstep : s.step = Step.waitingPassword) :
    ∀ u, (passwordInput n t s y).job = some u → CursorInv u := by
  have hs1 : CursorInv { s with password_attempts := s.password_attempts + 1 } := by
    refine ⟨hs.1, hs.2.1, fun h => ?_⟩
    rw [show ({ s with password_attempts := s.password_attempts + 1 } : BulkState).step
          = s.step from rfl, hstep] at h
    cases h
  intro u hu
  unfold passwordInput at hu
  dsimp only at hu
  by_cases h1 : (pyLower (pyStrip t) == "skip") = true
  · rw [if_pos h1] at hu
    exact numFailed_cursorInv n _ s y hs hlt u hu
  · rw [if_neg h1] at hu
    by_cases h2 : (pyStrip t == "") = true
    · rw [if_pos h2] at hu
      cases hu
      exact hs
    · rw [if_neg h2] at hu
      by_cases h3 : 2 < s.password_attempts + 1
      · rw [if_pos h3] at hu
        exact numFailed_cursorInv n _ _ y hs1 hlt u hu
      · rw [if_neg h3] at hu
        rcases hnp : y.env.nextPassword with ⟨r, e⟩
        cases r with
        | ok =>
          simp only [hnp] at hu
          exact saveBulk_cursorInv n _ _ _ hs1 hlt u hu
        | rejected msg =>
          simp only [hnp] at hu
          by_cases h4 : 2 ≤ s.password_attempts + 1
          · rw [if_pos h4] at hu
            exact numFailed_cursorInv n _ _ _ hs1 hlt u hu
          · rw [if_neg h4] at hu
            cases hu
            exact hs1

lemma numbersInput_cursorInv (t : String) (s : BulkState) (y : Sys)
    (hs : CursorInv s) (hstep : s.step = Step.waitingNumbers) :
    ∀ u, (numbersInput t s y).job = some u → CursorInv u := by
  intro u hu
  unfold numbersInput at hu
  dsimp only at hu
  by_cases h1 : (createAttempts (parsedLines t)).isEmpty = true
  · rw [if_pos h1] at hu
    cases hu
    exact hs
  · rw [if_neg h1] at hu
    cases hu
    have hidx : s.current_index = 0 := (hs.2.2 hstep).2
    refine ⟨rfl, ?_, fun h => ?_⟩
    · dsimp only
      omega
    · cases h

lemma cursorInv_set_processing (s : BulkState) (b : Bool) (hs : CursorInv s) :
    CursorInv { s with is_processing := b } :=
  ⟨hs.1, hs.2.1, fun hh => hs.2.2 hh⟩

lemma applyOp_cursorInv (n : Nat) (op : Op) (y : Sys)
    (h : ∀ s, y.job = some s → CursorInv s) (hg : inputGuard op y = true) :
    ∀ u, (applyOp n op y).job = some u → CursorInv u := by
  intro u hu
  cases op with
  | createBulk country =>
    unfold applyOp at hu
    cases hu
    exact ⟨rfl, le_refl _, fun _ => ⟨rfl, rfl⟩⟩
  | textInput t =>
    unfold applyOp at hu
    cases hy : y.job with
    | none =>
      simp only [hy] at hu
      exact Option.noConfusion hu
    | some s =>
      simp only [hy] at hu
      have hs := h s hy
      unfold inputGuard at hg
      simp only [hy] at hg
      cases hstep : s.step with
      | waitingNumbers =>
        simp only [hstep] at hu
        exact numbersInput_cursorInv t s y hs hstep u hu
      | confirmNumbers =>
        simp only [hstep] at hu
        rw [hy] at hu
        injection hu with h2
        subst h2
        exact hs
      | waitingOtp =>
        simp only [hstep] at hg hu
        exact otpInput_cursorInv n t s y hs (of_decide_eq_true hg) u hu
      | waitingPassword =>
        simp only [hstep] at hg hu
        exact passwordInput_cursorInv n t s y hs (of_decide_eq_true hg) hstep u hu
  | startAdd =>
    unfold applyOp at hu
    cases hy : y.job with
    | none =>
      simp only [hy] at hu
      exact Option.noConfusion hu
    | some s =>
      simp only [hy] at hu
      have hs := h s hy
      by_cases hemp : s.phone_numbers.isEmpty = true
      · rw [if_pos hemp] at hu
        rw [hy] at hu
        injection hu with h2
        subst h2
        exact hs
      · rw [if_neg hemp] at hu
        exact procNext_cursorInv n _ y (cursorInv_set_processing s true hs) u hu
  | pauseBulk =>
    unfold applyOp at hu
    cases hy : y.job with
    | none =>
      simp only [hy] at hu
      exact Option.noConfusion hu
    | some s =>
      simp only [hy] at hu
      cases hu
      exact cursorInv_set_processing s false (h s hy)
  | resumeBulk =>
    unfold applyOp at hu
    cases hy : y.job with
    | none =>
      simp only [hy] at hu
      exact Option.noConfusion hu
    | some s =>
      simp only [hy] at hu
      exact procNext_cursorInv n _ y (cursorInv_set_processing s true (h s hy)) u hu
  | skipButton =>
    unfold applyOp at hu
    cases hy : y.job with
    | none =>
      simp only [hy] at hu
      exact Option.noConfusion hu
    | some s =>
      simp only [hy] at hu
      unfold inputGuard at hg
      simp only [hy] at hg
      exact numFailed_cursorInv n _ s y (h s hy) (of_decide_eq_true hg) u hu
  | cancelBulk =>
    unfold applyOp at hu
    cases hy : y.job with
    | none =>
      simp only [hy] at hu
      exact Option.noConfusion hu
    | some s =>
      simp only [hy] at hu
      simp at hu

lemma guardedRun_cursorInv (n : Nat) (ops : List Op) :
    ∀ y : Sys, (∀ s, y.job = some s → CursorInv s) → guardedRun n y ops = true →
    ∀ s, (runTrace n y ops).job = some s → CursorInv s := by
  induction ops with
  | nil => intro y h _ s hs; exact h s hs
  | cons op rest ih =>
    intro y h hg s hs
    unfold guardedRun at hg
    rw [Bool.and_eq_true] at hg
    exact ih (applyOp n op y) (applyOp_cursorInv n op y h hg.1) hg.2 s hs

lemma otpInput_job_mono (n : Nat) (t : String) (s : BulkState) (y : Sys) (u : BulkState)
    (hu : (otpInput n t s y).job = some u) : s.current_index ≤ u.current_index := by
  unfold otpInput at hu
  dsimp only at hu
  by_cases h1 : (pyLower (pyStrip t) == "skip") = true
  · rw [if_pos h1] at hu
    exact numFailed_job_mono n _ s y u hu
  · rw [if_neg h1] at hu
    by_cases h2 : isFiveDigitCode (pyStrip t) = false
    · rw [if_pos h2] at hu
      cases hu
      exact le_refl _
    · rw [if_neg h2] at hu
      rcases hno : y.env.nextOtp with ⟨r, e⟩
      cases r with
      | ok =>
        simp only [hno] at hu
        exact saveBulk_job_mono n s _ none u hu
      | passwordRequired =>
        simp only [hno] at hu
        cases hu
        exact le_refl _
      | error msg =>
        simp only [hno] at hu
        exact numFailed_job_mono n _ s _ u hu

lemma passwordInput_job_mono (n : Nat) (t : String) (s : BulkState) (y : Sys) (u : BulkState)
    (hu : (passwordInput n t s y).job = some u) : s.current_index ≤ u.current_index := by
  unfold passwordInput at hu
  dsimp only at hu
  by_cases h1 : (pyLower (pyStrip t) == "skip") = true
  · rw [if_pos h1] at hu
    exact numFailed_job_mono n _ s y u hu
  · rw [if_neg h1] at hu
    by_cases h2 : (pyStrip t == "") = true
    · rw [if_pos h2] at hu
      cases hu
      exact le_refl _
    · rw [if_neg h2] at hu
      by_cases h3 : 2 < s.password_attempts + 1
      · rw [if_pos h3] at hu
        exact numFailed_job_mono n _ _ y u hu
      · rw [if_neg h3] at hu
        rcases hnp : y.env.nextPassword with ⟨r, e⟩
        cases r with
        | ok =>
          simp only [hnp] at hu
          exact saveBulk_job_mono n _ _ (some (pyStrip t)) u hu
        | rejected msg =>
          simp only [hnp] at hu
          by_cases h4 : 2 ≤ s.password_attempts + 1
          · rw [if_pos h4] at hu
            exact numFailed_job_mono n _ _ _ u hu
          · rw [if_neg h4] at hu
            cases hu
            exact le_refl _

lemma numbersInput_job_mono (t : String) (s : BulkState) (y : Sys) (u : BulkState)
    (hu : (numbersInput t s y).job = some u) : s.current_index ≤ u.current_index := by
  unfold numbersInput at hu
  dsimp only at hu
  by_cases h1 : (createAttempts (parsedLines t)).isEmpty = true
  · rw [if_pos h1] at hu
    cases hu
    exact le_refl _
  · rw [if_neg h1] at hu
    cases hu
    exact le_refl _

lemma applyOp_job_mono (n : Nat) (op : Op) (y : Sys) (s t : BulkState)
    (hne : ∀ c, op ≠ Op.createBulk c) (hy : y.job = some s)
    (hu : (applyOp n op y).job = some t) : s.current_index ≤ t.current_index := by
  cases op with
  | createBulk country => exact absurd rfl (hne country)
  | textInput tx =>
    unfold applyOp at hu
    simp only [hy] at hu
    cases hstep : s.step with
    | waitingNumbers =>
      simp only [hstep] at hu
      exact numbersInput_job_mono tx s y t hu
    | confirmNumbers =>
      simp only [hstep] at hu
      rw [hy] at hu
      injection hu with h2
      subst h2
      exact le_refl _
    | waitingOtp =>
      simp only [hstep] at hu
      exact otpInput_job_mono n tx s y t hu
    | waitingPassword =>
      simp only [hstep] at hu
      exact passwordInput_job_mono n tx s y t hu
  | startAdd =>
    unfold applyOp at hu
    simp only [hy] at hu
    by_cases hemp : s.phone_numbers.isEmpty = true
    · rw [if_pos hemp] at hu
      rw [hy] at hu
      injection hu with h2
      subst h2
      exact le_refl _
    · rw [if_neg hemp] at hu
      exact procNext_job_mono n { s with is_processing := true } y t hu
  | pauseBulk =>
    unfold applyOp at hu
    simp only [hy] at hu
    cases hu
    exact le_refl _
  | resumeBulk =>
    unfold applyOp at hu
    simp only [hy] at hu
    exact procNext_job_mono n { s with is_processing := true } y t hu
  | skipButton =>
    unfold applyOp at hu
    simp only [hy] at hu
    exact numFailed_job_mono n _ s y t hu
  | cancelBulk =>
    unfold applyOp at hu
    simp only [hy] at hu
    simp at hu

lemma numFailed_otps (n : Nat) (r : String) (s : BulkState) (y : Sys) :
    (numFailed n r s y).env.otps = y.env.otps := by
  obtain ⟨s', h1, h2, h3, h4, h5, hfr⟩ := numFailed_obs n r s y
  exact hfr.2.1

lemma numSuccess_otps (n : Nat) (s : BulkState) (y : Sys) :
    (numSuccess n s y).env.otps = y.env.otps := by
  obtain ⟨s', h1, h2, h3, h4, h5, hfr⟩ := numSuccess_obs n s y
  exact hfr.2.1

lemma saveBulk_otps (n : Nat) (s : BulkState) (y : Sys) (pw : Option String) :
    (saveBulk n s y pw).env.otps = y.env.otps := by
  unfold saveBulk
  rcases hsv : y.env.nextSave with ⟨r, e⟩
  have he : e.otps = y.env.otps := by
    rw [show e = (y.env.nextSave).2 from by rw [hsv]]
    simp
  cases r with
  | ok =>
    simp only [hsv]
    rw [numSuccess_otps]
    exact he
  | failure m =>
    simp only [hsv]
    rw [numFailed_otps]
    exact he

/-! ### Concrete fixtures used by witnesses and counterexamples -/

/-! ### Claim theorems -/

/-- C2: for every job and every sequence of engine operations, the
invariant `successCount + failureCount == cursor` holds in every
reachable state — in the live job after every advance (Skipped attempts
count toward `failureCount`) and in the completion summary. -/
theorem counts_match_cursor (n : Nat) (e : Env) (ops : List Op) (s : BulkState) :
    ((runTrace n (initSys e) ops).job = some s →
      s.success_count + s.failed_count = s.current_index) ∧
    ((runTrace n (initSys e) ops).finished = some s →
      s.success_count + s.failed_count = s.current_index) := by
  have h := runTrace_counters n ops (initSys e) (initSys_counters e)
  exact ⟨fun hj => h.1 s hj, fun hf => h.2 s hf⟩

theorem counts_match_cursor_witness :
    (initState "India").success_count + (initState "India").failed_count =
      (initState "India").current_index :=
  (counts_match_cursor 5 envEmpty [Op.createBulk "India"] (initState "India")).1 rfl

/-- C3 (counterexample): the cursor CAN exceed `len(attempts)`.  Reachable
trace: create a job with one number, start it, pause it, skip by text
(cursor reaches 1 = len, but the paused `process_next_bulk_number` defers
the summary so the job survives), then press the still-displayed Skip
button: the handler increments the cursor unconditionally, reaching 2 > 1. -/
theorem cursor_exceeds_attempts :
    ((runTrace 20 (initSys envStaleSkip) opsStaleSkip).job.map
      (fun s => (s.current_index, s.phone_numbers.length))) = some (2, 1) := rfl

/-- C3 (amended): the cursor is monotonically non-decreasing under every
engine operation (job creation aside, which installs a fresh job), and
`0 ≤ cursor ≤ len(attempts)` holds in every reachable state provided skip
presses and attempt-directed text inputs are only delivered while
`cursor < len(attempts)`; without that proviso a skip delivered to a
paused job whose cursor already equals `len(attempts)` pushes the cursor
past the end (see the counterexample). -/
theorem cursor_monotone_and_guarded_bound :
    (∀ (n : Nat) (op : Op) (y : Sys) (s t : BulkState),
      (∀ c, op ≠ Op.createBulk c) → y.job = some s →
      (applyOp n op y).job = some t → s.current_index ≤ t.current_index) ∧
    (∀ (n : Nat) (e : Env) (ops : List Op) (s : BulkState),
      guardedRun n (initSys e) ops = true →
      (runTrace n (initSys e) ops).job = some s →
      s.current_index ≤ s.phone_numbers.length) := by
  constructor
  · exact fun n op y s t => applyOp_job_mono n op y s t
  · intro n e ops s hg hs
    have h := guardedRun_cursorInv n ops (initSys e) (fun u hu => by cases hu) hg s hs
    obtain ⟨h1, h2, _⟩ := h
    omega

theorem cursor_monotone_and_guarded_bound_witness :
    (initState "India").current_index ≤ (initState "India").phone_numbers.length :=
  cursor_monotone_and_guarded_bound.2 5 envEmpty [Op.createBulk "India"]
    (initState "India") rfl rfl

/-- C4 (counterexample): the claim's "keeps exactly the entries matching
the check, capped at 50" fails: the source truncates the input to its
first 50 lines BEFORE filtering (`for line in lines[:50]`), so on an
input of one invalid line followed by 50 valid ones the job gets 49
attempts where keep-matching-then-cap (`specCreateAttempts`, the spec's
wording) would give 50. -/
theorem createJob_cap_before_filter :
    (createAttempts over50Input).length = 49 ∧
    (specCreateAttempts over50Input).length = 50 := ⟨rfl, rfl⟩

/-- C4 (amended): `createJob` considers only the first 50 input lines and
keeps, in order, those matching `^\+\d\x7b10,15\x7d$`; hence at most 50
attempts, every kept attempt matches the check, the kept list is a
subsequence of the input, zero valid numbers among the first 50 lines
leave the state untouched (validation error, no job), otherwise exactly
the kept entries become the job's attempts; the scenario input
`["+911111111111", "bad", "+912222222222"]` yields exactly 2 attempts. -/
theorem createJob_capped_filter :
    (∀ raw : List String, (createAttempts raw).length ≤ 50 ∧
      ∀ p ∈ createAttempts raw, validPhone p = true) ∧
    (∀ raw : List String, (createAttempts raw).Sublist raw) ∧
    (∀ (n : Nat) (y : Sys) (s : BulkState) (t : String),
      y.job = some s → s.step = Step.waitingNumbers →
      createAttempts (parsedLines t) = [] → applyOp n (Op.textInput t) y = y) ∧
    (∀ (n : Nat) (y : Sys) (s : BulkState) (t : String),
      y.job = some s → s.step = Step.waitingNumbers →
      createAttempts (parsedLines t) ≠ [] →
      (applyOp n (Op.textInput t) y).job =
        some { s with phone_numbers := createAttempts (parsedLines t),
                      total_numbers := (createAttempts (parsedLines t)).length,
                      step := Step.confirmNumbers }) ∧
    createAttempts ["+911111111111", "bad", "+912222222222"] =
      ["+911111111111", "+912222222222"] := by
  refine ⟨?_, ?_, ?_, ?_, rfl⟩
  · intro raw
    constructor
    · exact le_trans (List.length_filter_le _ _) (List.length_take_le 50 raw)
    · intro p hp
      exact (List.mem_filter.1 hp).2
  · intro raw
    exact (List.filter_sublist _).trans (List.take_sublist 50 raw)
  · intro n y s t hy hstep hnil
    unfold applyOp
    simp only [hy, hstep]
    unfold numbersInput
    dsimp only
    rw [if_pos (by simp [hnil])]
    exact set_job_eq y s hy
  · intro n y s t hy hstep hne
    unfold applyOp
    simp only [hy, hstep]
    unfold numbersInput
    dsimp only
    rw [if_neg (by simp [List.isEmpty_iff, hne])]

theorem createJob_capped_filter_witness :
    (applyOp 5 (Op.textInput "+911111111111\nbad\n+912222222222") yFresh).job =
      some { initState "India" with
              phone_numbers :=
                createAttempts (parsedLines "+911111111111\nbad\n+912222222222")
              total_numbers :=
                (createAttempts (parsedLines "+911111111111\nbad\n+912222222222")).length
              step := Step.confirmNumbers } :=
  createJob_capped_filter.2.2.2.1 5 yFresh (initState "India")
    "+911111111111\nbad\n+912222222222" rfl rfl (by decide)

/-- C5: in both `AwaitingCode` (`waiting_bulk_otp`) and
`AwaitingSecondFactor` (`waiting_bulk_password`), the case-insensitive
text token `skip` runs `bulk_number_failed("Skipped by admin")` — the
attempt is recorded as skipped, `failureCount` is incremented and the
cursor advances — with no hypothesis on `isRunning`. -/
theorem skip_token_universal (n : Nat) (y : Sys) (s : BulkState) (t : String)
    (hy : y.job = some s)
    (hstep : s.step = Step.waitingOtp ∨ s.step = Step.waitingPassword)
    (hskip : pyLower (pyStrip t) = "skip") :
    ∃ s' ext, observed (applyOp n (Op.textInput t) y) = some s' ∧
      s'.failed_numbers = s.failed_numbers ++
        (⟨s.current_phone.getD "Unknown", "Skipped by admin"⟩ :: ext) ∧
      s.failed_count + 1 ≤ s'.failed_count ∧
      s.current_index + 1 ≤ s'.current_index := by
  have hbeq : (pyLower (pyStrip t) == "skip") = true := by simp [hskip]
  unfold applyOp
  simp only [hy]
  rcases hstep with h | h
  · simp only [h]
    unfold otpInput
    dsimp only
    rw [if_pos hbeq]
    obtain ⟨s', ho, ⟨ext, he⟩, hi, hf, _, _⟩ := numFailed_obs n "Skipped by admin" s y
    exact ⟨s', ext, ho, he, hf, hi⟩
  · simp only [h]
    unfold passwordInput
    dsimp only
    rw [if_pos hbeq]
    obtain ⟨s', ho, ⟨ext, he⟩, hi, hf, _, _⟩ := numFailed_obs n "Skipped by admin" s y
    exact ⟨s', ext, ho, he, hf, hi⟩

theorem skip_token_universal_witness :
    ∃ s' ext, observed (applyOp 5 (Op.textInput "skip") yAwait) = some s' ∧
      s'.failed_numbers = sAwait.failed_numbers ++
        (⟨sAwait.current_phone.getD "Unknown", "Skipped by admin"⟩ :: ext) ∧
      sAwait.failed_count + 1 ≤ s'.failed_count ∧
      sAwait.current_index + 1 ≤ s'.current_index :=
  skip_token_universal 5 yAwait sAwait "skip" rfl (Or.inl rfl) rfl

/-- C6 (counterexample): `release()` is NOT invoked exactly once per
facade instance.  Trace: number 1 verifies and saves; the facade (id 7)
is disconnected by `bulk_number_success`, but `current_client` is not
cleared; the code request for number 2 fails, and `bulk_number_failed`
disconnects the stale handle again — two releases of instance 7. -/
theorem facade_released_twice :
    (runTrace 20 (initSys envDoubleRelease) opsDoubleRelease).releases = [7, 7] := rfl

/-- C6 (amended): `cancel` discards the job unconditionally, independent
of `isRunning`, and performs exactly one `release()` call on the
currently held facade handle (none if no handle is held) and no other
facade call; but across a job's lifetime a facade instance can be
released more than once, because the handle is not cleared after the
per-attempt release (see the counterexample). -/
theorem cancel_discards_and_releases (n : Nat) (y : Sys) (s : BulkState)
    (hy : y.job = some s) :
    (applyOp n Op.cancelBulk y).job = none ∧
    (∀ c, s.current_client = some c →
      (applyOp n Op.cancelBulk y).releases = y.releases ++ [c]) ∧
    (s.current_client = none → (applyOp n Op.cancelBulk y).releases = y.releases) ∧
    (applyOp n Op.cancelBulk y).env = y.env ∧
    (applyOp n Op.cancelBulk y).finished = y.finished := by
  unfold applyOp
  simp only [hy]
  refine ⟨by simp, ?_, ?_, by simp, by simp⟩
  · intro c hc
    simp [doRelease, hc]
  · intro hc
    simp [doRelease, hc]

theorem cancel_discards_and_releases_witness :
    (applyOp 5 Op.cancelBulk yAwait).job = none ∧
    (applyOp 5 Op.cancelBulk yAwait).releases = yAwait.releases ++ [4] :=
  ⟨(cancel_discards_and_releases 5 yAwait sAwait rfl).1,
   (cancel_discards_and_releases 5 yAwait sAwait rfl).2.1 4 rfl⟩

/-- C9: `pause` only sets `isRunning := false` (cursor and the current
attempt untouched), so a second `pause` is a no-op; and
`process_next_bulk_number` returns without starting anything while the
job is paused, so the next attempt waits for `resume`. -/
theorem pause_idempotent :
    (∀ (n : Nat) (y : Sys) (s : BulkState), y.job = some s →
      applyOp n Op.pauseBulk y =
        { y with job := some { s with is_processing := false } } ∧
      applyOp n Op.pauseBulk (applyOp n Op.pauseBulk y) = applyOp n Op.pauseBulk y) ∧
    (∀ (n : Nat) (s : BulkState) (y : Sys), s.is_processing = false →
      procNext n s y = { y with job := some s }) := by
  constructor
  · intro n y s hy
    have h1 : applyOp n Op.pauseBulk y =
        { y with job := some { s with is_processing := false } } := by
      unfold applyOp
      simp only [hy]
    refine ⟨h1, ?_⟩
    rw [h1]
    rfl
  · intro n s y hs
    cases n with
    | zero => rfl
    | succ m => simp [procNext, hs]

theorem pause_idempotent_witness :
    applyOp 5 Op.pauseBulk yAwait =
      { yAwait with job := some { sAwait with is_processing := false } } ∧
    applyOp 5 Op.pauseBulk (applyOp 5 Op.pauseBulk yAwait) =
      applyOp 5 Op.pauseBulk yAwait :=
  (pause_idempotent.1 5 yAwait sAwait rfl)

/-- C10: a whitespace-only second-factor submission is rejected before
the counter increment and before any facade call: the entire system state
(job, counters, `secondFactorAttempts`, oracles, logs) is unchanged. -/
theorem empty_password_no_effect (n : Nat) (y : Sys) (s : BulkState) (t : String)
    (hy : y.job = some s) (hstep : s.step = Step.waitingPassword)
    (hempty : pyStrip t = "") : applyOp n (Op.textInput t) y = y := by
  unfold applyOp
  simp only [hy, hstep]
  unfold passwordInput
  dsimp only
  have h1 : ¬((pyLower (pyStrip t) == "skip") = true) := by
    rw [hempty]
    decide
  rw [if_neg h1]
  have h2 : (pyStrip t == "") = true := by
    rw [hempty]
    decide
  rw [if_pos h2]
  exact set_job_eq y s hy

theorem empty_password_no_effect_witness :
    applyOp 5 (Op.textInput "   ") yPw = yPw :=
  empty_password_no_effect 5 yPw sPw "   " rfl rfl rfl

/-- C1 (counterexample): with a facade that always rejects the password,
the attempt fails after the SECOND submission, not the third: submission 1
increments `password_attempts` to 1 and retries; submission 2 increments
to 2, and on rejection `password_attempts >= 2` forces
`bulk_number_failed`.  The facade is consulted only twice (`pwCalls`),
the single attempt ends Failed (summary: 0 successes, 1 failure,
cursor 1) and the job is gone before any third submission could occur. -/
theorem secondFactor_fails_after_two :
    (runTrace 20 (initSys envTwoRejects) opsTwoRejects).job = none ∧
    ((runTrace 20 (initSys envTwoRejects) opsTwoRejects).finished.map
      (fun s => (s.success_count, s.failed_count, s.current_index))) = some (0, 1, 1) ∧
    (runTrace 20 (initSys envTwoRejects) opsTwoRejects).pwCalls = [1, 2] :=
  ⟨rfl, rfl, rfl⟩

/-- C1 (amended): exactly 2 total second-factor submissions (the initial
one plus 1 retry) are allowed before the attempt is forced to Failed:
(1) a first rejected submission only sets `secondFactorAttempts` to 1 and
leaves everything else unchanged (still awaiting); (2) a second rejected
submission forces the attempt to Failed ("Password error") and advances
the cursor; (3) if the first submission was rejected and the second is
accepted (and the save succeeds), the attempt reaches Verified with the
accepting facade call made at `secondFactorAttempts == 2`. -/
theorem secondFactor_two_submission_cap :
    (∀ (n : Nat) (y : Sys) (s : BulkState) (e1 : String) (ps : List PasswordResult)
       (t : String),
      y.job = some s → s.step = Step.waitingPassword → s.password_attempts = 0 →
      y.env.passwords = PasswordResult.rejected e1 :: ps →
      pyStrip t ≠ "" → pyLower (pyStrip t) ≠ "skip" →
      applyOp n (Op.textInput t) y =
        { y with
            job := some { s with password_attempts := 1 }
            env := { y.env with passwords := ps }
            pwCalls := y.pwCalls ++ [1] }) ∧
    (∀ (n : Nat) (y : Sys) (s : BulkState) (e2 : String) (ps : List PasswordResult)
       (t : String),
      y.job = some s → s.step = Step.waitingPassword → s.password_attempts = 1 →
      y.env.passwords = PasswordResult.rejected e2 :: ps →
      pyStrip t ≠ "" → pyLower (pyStrip t) ≠ "skip" →
      ∃ s' ext, observed (applyOp n (Op.textInput t) y) = some s' ∧
        s'.failed_numbers = s.failed_numbers ++
          (⟨s.current_phone.getD "Unknown", "Password error: " ++ e2⟩ :: ext) ∧
        s.failed_count + 1 ≤ s'.failed_count ∧
        s.current_index + 1 ≤ s'.current_index) ∧
    (∀ (n : Nat) (y : Sys) (s : BulkState) (ps : List PasswordResult)
       (ss : List SaveResult) (t : String),
      y.job = some s → s.step = Step.waitingPassword → s.password_attempts = 1 →
      y.env.passwords = PasswordResult.ok :: ps →
      y.env.saves = SaveResult.ok :: ss →
      pyStrip t ≠ "" → pyLower (pyStrip t) ≠ "skip" →
      ∃ s', observed (applyOp n (Op.textInput t) y) = some s' ∧
        s.success_count + 1 ≤ s'.success_count ∧
        s.current_index + 1 ≤ s'.current_index ∧
        (applyOp n (Op.textInput t) y).pwCalls = y.pwCalls ++ [2]) := by
  refine ⟨?_, ?_, ?_⟩
  · intro n y s e1 ps t hy hstep hatt henv hemp hskip
    have h1 : ¬((pyLower (pyStrip t) == "skip") = true) := by simpa using hskip
    have h2 : ¬((pyStrip t == "") = true) := by simpa using hemp
    unfold applyOp
    simp only [hy, hstep]
    unfold passwordInput
    dsimp only
    rw [if_neg h1, if_neg h2, if_neg (by omega : ¬ 2 < s.password_attempts + 1),
      nextPassword_cons y.env _ _ henv]
    dsimp only
    rw [if_neg (by omega : ¬ 2 ≤ s.password_attempts + 1)]
    simp [hatt, hstep]
  · intro n y s e2 ps t hy hstep hatt henv hemp hskip
    have h1 : ¬((pyLower (pyStrip t) == "skip") = true) := by simpa using hskip
    have h2 : ¬((pyStrip t == "") = true) := by simpa using hemp
    unfold applyOp
    simp only [hy, hstep]
    unfold passwordInput
    dsimp only
    rw [if_neg h1, if_neg h2, if_neg (by omega : ¬ 2 < s.password_attempts + 1),
      nextPassword_cons y.env _ _ henv]
    dsimp only
    rw [if_pos (by omega : 2 ≤ s.password_attempts + 1)]
    obtain ⟨s', ho, ⟨ext, he⟩, hi, hf, _, _⟩ :=
      numFailed_obs n ("Password error: " ++ e2)
        { s with password_attempts := s.password_attempts + 1 }
        { y with env := { y.env with passwords := ps },
                 pwCalls := y.pwCalls ++ [s.password_attempts + 1] }
    exact ⟨s', ext, ho, he, hf, hi⟩
  · intro n y s ps ss t hy hstep hatt henv hsave hemp hskip
    have h1 : ¬((pyLower (pyStrip t) == "skip") = true) := by simpa using hskip
    have h2 : ¬((pyStrip t == "") = true) := by simpa using hemp
    unfold applyOp
    simp only [hy, hstep]
    unfold passwordInput
    dsimp only
    rw [if_neg h1, if_neg h2, if_neg (by omega : ¬ 2 < s.password_attempts + 1),
      nextPassword_cons y.env _ _ henv]
    dsimp only
    unfold saveBulk
    have hsv1 : ({ y.env with passwords := ps } : Env).saves = SaveResult.ok :: ss := hsave
    rw [nextSave_cons _ _ _ hsv1]
    dsimp only
    obtain ⟨s', ho, _, hi, _, hsc, hfr⟩ :=
      numSuccess_obs n { s with password_attempts := s.password_attempts + 1 }
        { y with env := { { y.env with passwords := ps } with saves := ss },
                 pwCalls := y.pwCalls ++ [s.password_attempts + 1] }
    refine ⟨s', ho, hsc, hi, ?_⟩
    have hpw := hfr.1
    simpa [hatt] using hpw

theorem secondFactor_two_submission_cap_witness :
    applyOp 5 (Op.textInput "hunter2") yPw =
      { yPw with
          job := some { sPw with password_attempts := 1 }
          env := { yPw.env with passwords := [] }
          pwCalls := yPw.pwCalls ++ [1] } :=
  secondFactor_two_submission_cap.1 5 yPw sPw "bad" [] "hunter2" rfl rfl rfl rfl
    (by decide) (by decide)

lemma procNext_running_success (k : Nat) (s : BulkState) (y : Sys) (c : Nat)
    (cs : List SendCodeResult) (hp : s.is_processing = true)
    (hlt : s.current_index < s.total_numbers)
    (hsc : y.env.sendCodes = SendCodeResult.success c :: cs) :
    procNext (k + 1) s y =
      { y with
          env := { y.env with sendCodes := cs }
          job := some { s with
            current_phone := some (s.phone_numbers.getD s.current_index "")
            password_attempts := 0
            current_client := some c
            step := Step.waitingOtp } } := by
  simp only [procNext]
  rw [if_neg (by simp [hp]), if_neg (by omega), nextSend_cons y.env _ _ hsc]

/-- C7: when verification succeeds (`submitCode` accepted) but the
credential-store save fails, the failure is attempt-local: the attempt is
recorded Failed with reason "Save error: ..." (credential lost, no
retry), the cursor advances and success count is untouched (part 1); and
the job continues with the next attempt rather than aborting — when the
job is running and attempts remain, the next number's code request is
issued and the job is awaiting that attempt's code (part 2). -/
theorem storage_failure_attempt_local :
    (∀ (n : Nat) (y : Sys) (s : BulkState) (t m : String)
       (os : List OtpResult) (ss : List SaveResult),
      y.job = some s → s.step = Step.waitingOtp →
      pyLower (pyStrip t) ≠ "skip" → isFiveDigitCode (pyStrip t) = true →
      y.env.otps = OtpResult.ok :: os → y.env.saves = SaveResult.failure m :: ss →
      ∃ s' ext, observed (applyOp n (Op.textInput t) y) = some s' ∧
        s'.failed_numbers = s.failed_numbers ++
          (⟨s.current_phone.getD "Unknown", "Save error: " ++ m⟩ :: ext) ∧
        s.failed_count + 1 ≤ s'.failed_count ∧
        s.current_index + 1 ≤ s'.current_index ∧
        s.success_count ≤ s'.success_count) ∧
    (∀ (n : Nat) (y : Sys) (s : BulkState) (t m : String) (c : Nat)
       (os : List OtpResult) (ss : List SaveResult) (cs : List SendCodeResult),
      y.job = some s → s.step = Step.waitingOtp →
      pyLower (pyStrip t) ≠ "skip" → isFiveDigitCode (pyStrip t) = true →
      y.env.otps = OtpResult.ok :: os → y.env.saves = SaveResult.failure m :: ss →
      y.env.sendCodes = SendCodeResult.success c :: cs →
      s.is_processing = true → s.current_index + 1 < s.total_numbers → 1 ≤ n →
      (applyOp n (Op.textInput t) y).job = some
        { s with
            failed_count := s.failed_count + 1
            failed_numbers := s.failed_numbers ++
              [⟨s.current_phone.getD "Unknown", "Save error: " ++ m⟩]
            current_index := s.current_index + 1
            password_attempts := 0
            current_phone := some (s.phone_numbers.getD (s.current_index + 1) "")
            current_client := some c
            step := Step.waitingOtp }) := by
  constructor
  · intro n y s t m os ss hy hstep hskip h5 hotps hsaves
    have h1 : ¬((pyLower (pyStrip t) == "skip") = true) := by simpa using hskip
    unfold applyOp
    simp only [hy, hstep]
    unfold otpInput
    dsimp only
    rw [if_neg h1, if_neg (by simp [h5]), nextOtp_cons y.env _ _ hotps]
    dsimp only
    unfold saveBulk
    have hsv1 : ({ y.env with otps := os } : Env).saves = SaveResult.failure m :: ss :=
      hsaves
    rw [nextSave_cons _ _ _ hsv1]
    dsimp only
    obtain ⟨s', ho, ⟨ext, he⟩, hi, hf, hsc, _⟩ :=
      numFailed_obs n ("Save error: " ++ m) s
        { y with env := { { y.env with otps := os } with saves := ss } }
    exact ⟨s', ext, ho, he, hf, hi, hsc⟩
  · intro n y s t m c os ss cs hy hstep hskip h5 hotps hsaves hsends hproc hlt hn
    have h1 : ¬((pyLower (pyStrip t) == "skip") = true) := by simpa using hskip
    unfold applyOp
    simp only [hy, hstep]
    unfold otpInput
    dsimp only
    rw [if_neg h1, if_neg (by simp [h5]), nextOtp_cons y.env _ _ hotps]
    dsimp only
    unfold saveBulk
    have hsv1 : ({ y.env with otps := os } : Env).saves = SaveResult.failure m :: ss :=
      hsaves
    rw [nextSave_cons _ _ _ hsv1]
    dsimp only
    unfold numFailed
    obtain ⟨k, rfl⟩ : ∃ k, n = k + 1 := ⟨n - 1, by omega⟩
    rw [procNext_running_success k _ _ c cs
      (by rw [failStep_fst]; exact hproc)
      (by rw [failStep_fst]; dsimp only; omega)
      (by rw [failStep_snd, doRelease_env]; exact hsends)]
    rfl

theorem storage_failure_attempt_local_witness :
    ∃ s' ext, observed (applyOp 5 (Op.textInput "12345") yAwaitSave) = some s' ∧
      s'.failed_numbers = sAwait.failed_numbers ++
        (⟨sAwait.current_phone.getD "Unknown", "Save error: " ++ "db down"⟩ :: ext) ∧
      sAwait.failed_count + 1 ≤ s'.failed_count ∧
      sAwait.current_index + 1 ≤ s'.current_index ∧
      sAwait.success_count ≤ s'.success_count :=
  storage_failure_attempt_local.1 5 yAwaitSave sAwait "12345" "db down" [] []
    rfl rfl (by decide) (by decide) rfl rfl

/-- C8: in `AwaitingCode`, non-skip free text is forwarded to the
verification facade as a code if and only if it is exactly 5 digits
(Python `isdigit() and len == 5`): otherwise the handler replies with a
format error and the entire system state is unchanged; when it matches,
exactly one code-verification oracle response is consumed. -/
theorem otp_code_format_gate (n : Nat) (y : Sys) (s : BulkState) (t : String)
    (hy : y.job = some s) (hstep : s.step = Step.waitingOtp)
    (hskip : pyLower (pyStrip t) ≠ "skip") :
    (isFiveDigitCode (pyStrip t) = false → applyOp n (Op.textInput t) y = y) ∧
    (isFiveDigitCode (pyStrip t) = true →
      (applyOp n (Op.textInput t) y).env.otps = y.env.otps.tail) := by
  have h1 : ¬((pyLower (pyStrip t) == "skip") = true) := by simpa using hskip
  unfold applyOp
  simp only [hy, hstep]
  unfold otpInput
  dsimp only
  rw [if_neg h1]
  constructor
  · intro h5
    rw [if_pos h5]
    exact set_job_eq y s hy
  · intro h5
    rw [if_neg (by simp [h5])]
    rcases hno : y.env.nextOtp with ⟨r, e⟩
    have he : e.otps = y.env.otps.tail := by
      rw [show e = (y.env.nextOtp).2 from by rw [hno]]
      simp
    cases r with
    | ok =>
      simp only [hno]
      rw [saveBulk_otps]
      exact he
    | passwordRequired =>
      simp only [hno]
      exact he
    | error msg =>
      simp only [hno]
      rw [numFailed_otps]
      exact he

theorem otp_code_format_gate_witness :
    applyOp 5 (Op.textInput "abc") yAwait = yAwait :=
  (otp_code_format_gate 5 yAwait sAwait "abc" rfl rfl (by decide)).1 (by decide)
